import Mathlib

/-!
Shallow embedding of `src/app.py` (pinki1708/security-system): the
failed-attempt tracking and threshold-triggered notification pipeline.

Persistence is file-backed JSON in the source; here the counter store is a
total function `String → Nat` (a missing key reads as 0, exactly as
`data.get(e, 0)` does) and the message store is `String → Option String`
(a missing key reads as `None`, exactly as `data.pop(str(user_id), None)`).
Network I/O of the resolver is modelled by passing in the sequence of
outcomes the external lookup service would produce for successive requests;
the code consumes as many outcomes as requests it actually issues.
-/

/-- Python's `str.strip()` on the character list of a string: drop whitespace
from both ends. -/
def pyStrip (l : List Char) : List Char :=
  ((l.dropWhile Char.isWhitespace).reverse.dropWhile Char.isWhitespace).reverse

/-- From `norm_email` (src/app.py:19-20): `(e or "").strip().lower()`.
Strip surrounding whitespace, then lowercase each character, matching
Python's behaviour on the ASCII inputs at issue. -/
def norm_email (e : String) : String := String.mk ((pyStrip e.data).map Char.toLower)

/-- Contents of `attempts.json`: per-key failed-attempt count, absent key = 0. -/
abbrev AttemptStore := String → Nat

/-- Pointwise update of the attempt store (`data[e] = count` before `save_json`). -/
def updA (s : AttemptStore) (k : String) (v : Nat) : AttemptStore :=
  fun x => if x = k then v else s x

/-- From `increment_attempt` (src/app.py:83-90): normalize the email, read the
current count (0 if absent), add 1, persist, return the new count. -/
def increment_attempt (email : String) (s : AttemptStore) : Nat × AttemptStore :=
  let e := norm_email email
  let count := s e + 1
  (count, updA s e count)

/-- From `reset_attempt` (src/app.py:92-97): normalize the email and persist 0. -/
def reset_attempt (email : String) (s : AttemptStore) : AttemptStore :=
  updA s (norm_email email) 0

/-- Contents of `messages.json`: pending message per recipient id, absent = none. -/
abbrev MsgStore := String → Option String

/-- Pointwise update of the message store. -/
def updM (s : MsgStore) (k : String) (v : Option String) : MsgStore :=
  fun x => if x = k then v else s x

/-- From `store_message_temp` (src/app.py:67-72): `data[str(user_id)] = message`
then save. The recipient id is already a string here. -/
def store_message_temp (user_id : String) (message : String) (s : MsgStore) : MsgStore :=
  updM s user_id (some message)

/-- From `get_and_delete_message` (src/app.py:74-80):
`message = data.pop(str(user_id), None)`, then `if message:` save and return
`(message, None)`, else return `(None, "No message found")`.
The returned store is the PERSISTED one: `save_json` runs only when the popped
message is truthy (present and non-empty), so on a falsy pop the file keeps its
old contents, the empty-string message included. Result mirrors the source's
two-tuple `(message?, error?)`. -/
def get_and_delete_message (user_id : String) (s : MsgStore) :
    (Option String × Option String) × MsgStore :=
  match s user_id with
  | none => ((none, some "No message found"), s)
  | some m =>
    if m = "" then ((none, some "No message found"), s)
    else ((some m, none), updM s user_id none)

/-- Parsed JSON body of a lookup response (src/app.py:105-113), giving the value
found at each of the five probed field paths: top-level `id`, top-level
`userId`, nested `user.id`, nested `data.id`, nested `result.id`. A path whose
container or field is absent (or whose container is falsy, so that
`(data.get(...) or {}).get("id")` yields `None`) is `none`; identifier values
are modelled as strings, the opaque identifiers the service returns. -/
structure RespBody where
  id : Option String
  userId : Option String
  userDotId : Option String
  dataDotId : Option String
  resultDotId : Option String

/-- Outcome of one HTTP request to the lookup endpoint: either a response with
a status code and a parsed body (`none` body = `resp.json()` raised), or a
transport-level exception carrying its message. -/
inductive LookupOutcome where
  | response (statusCode : Nat) (body : Option RespBody)
  | transportErr (msg : String)

/-- Python's `x or y` on optional strings: `None` and `""` are falsy and fall
through to `y`; any other string is returned as-is. -/
def pyOr (a b : Option String) : Option String :=
  match a with
  | none => b
  | some t => if t = "" then b else some t

/-- Python truthiness of an optional string: present and non-empty. -/
def isTruthy : Option String → Bool
  | none => false
  | some t => t ≠ ""

/-- The `or`-chain of src/app.py:107-113, exactly as written (the last operand
is not truthiness-filtered by the chain itself; the caller's `if not user_id`
check handles a trailing falsy value). -/
def extract_user_id (b : RespBody) : Option String :=
  pyOr b.id (pyOr b.userId (pyOr b.userDotId (pyOr b.dataDotId b.resultDotId)))

/-- Handling of a single response inside the `try` of `fetch_user_id_by_email`
(src/app.py:101-118): non-200 status fails with `lookup failed: <code>`; a body
that fails to parse raises and is caught, returning the exception text; else
the `or`-chain extracts an id and `if not user_id` rejects a falsy result. -/
def fetch_attempt (o : LookupOutcome) : Option String × Option String :=
  match o with
  | .transportErr msg => (none, some msg)
  | .response code body =>
    if code ≠ 200 then (none, some ("lookup failed: " ++ toString code))
    else
      match body with
      | none => (none, some "malformed response body")
      | some b =>
        let uid := extract_user_id b
        if isTruthy uid then (uid, none)
        else (none, some "id not found in response")

/-- From `fetch_user_id_by_email` (src/app.py:100-118). The argument is the
sequence of outcomes the external service would produce for successive
requests; the source issues exactly one `requests.get`, so only the first
outcome is ever consumed. An empty sequence means the request itself could not
produce any outcome and is modelled as a transport error. -/
def fetch_user_id_by_email (outcomes : List LookupOutcome) : Option String × Option String :=
  match outcomes with
  | [] => (none, some "transport error")
  | o :: _ => fetch_attempt o

/-- The fixed warning text of src/app.py:192. -/
def warning_message : String := "⚠ WARNING: 3 wrong login attempts detected for your account!"

/-- Joint persistent state of the service: `attempts.json` and `messages.json`. -/
structure SysState where
  attempts : AttemptStore
  messages : MsgStore

/-- Result of the wrong-password branch of `login` (src/app.py:182-203), the
orchestrator's `RecordFailure`. `triggered` records which branch produced the
response: `true` for the threshold branch (src/app.py:185-201, whose JSON
carries the extra lookup/notify fields), `false` for the plain
`{"error": ..., "attempts": n}` response of src/app.py:203. `notify_sent` is
`bool(notify_status)` where `send_in_app_message` returns `(True, None)`. -/
structure FailureResult where
  attempts : Nat
  triggered : Bool
  external_user_id : Option String
  external_lookup_error : Option String
  notify_sent : Bool
  notify_error : Option String

/-- The wrong-password branch of `login` (src/app.py:182-203): increment the
counter; if the new count equals 3, reset the counter FIRST, then resolve the
external user id and, if resolution produced a (truthy) id, store the warning
message for it; otherwise just report the count. -/
def recordFailure (email : String) (outcomes : List LookupOutcome) (st : SysState) :
    FailureResult × SysState :=
  let wrong_attempts := (increment_attempt email st.attempts).1
  let att1 := (increment_attempt email st.attempts).2
  if wrong_attempts = 3 then
    let att2 := reset_attempt email att1
    let ext := fetch_user_id_by_email outcomes
    match ext.1 with
    | some uid =>
      ({ attempts := 3, triggered := true, external_user_id := some uid,
         external_lookup_error := ext.2, notify_sent := true, notify_error := none },
       { attempts := att2, messages := store_message_temp uid warning_message st.messages })
    | none =>
      ({ attempts := 3, triggered := true, external_user_id := none,
         external_lookup_error := ext.2, notify_sent := false, notify_error := none },
       { attempts := att2, messages := st.messages })
  else
    ({ attempts := wrong_attempts, triggered := false, external_user_id := none,
       external_lookup_error := none, notify_sent := false, notify_error := none },
     { attempts := att1, messages := st.messages })

/-- The successful-verification branch of `login` (src/app.py:178-180), the
orchestrator's `RecordSuccess`: reset the counter unconditionally. -/
def recordSuccess (email : String) (st : SysState) : SysState :=
  { st with attempts := reset_attempt email st.attempts }

/-- Iterate `recordFailure` n times for the same account, feeding each call the
same resolver-outcome sequence, collecting the per-call results in order. -/
def runFailures (n : Nat) (email : String) (outcomes : List LookupOutcome) (st : SysState) :
    List FailureResult × SysState :=
  match n with
  | 0 => ([], st)
  | n + 1 =>
    let p := recordFailure email outcomes st
    let rest := runFailures n email outcomes p.2
    (p.1 :: rest.1, rest.2)

/-- Follows the spec's words (§4.5, §6), for comparison with `recordFailure`:
`RecordFailure` with a configurable positive threshold `thresholdCount`
(default 3): always increment first; when the new count equals the threshold,
reset and trigger resolution plus dispatch. Identical to `recordFailure`
except that the trigger compares against the parameter instead of 3. -/
def recordFailureSpec (thresholdCount : Nat) (email : String)
    (outcomes : List LookupOutcome) (st : SysState) : FailureResult × SysState :=
  let wrong_attempts := (increment_attempt email st.attempts).1
  let att1 := (increment_attempt email st.attempts).2
  if wrong_attempts = thresholdCount then
    let att2 := reset_attempt email att1
    let ext := fetch_user_id_by_email outcomes
    match ext.1 with
    | some uid =>
      ({ attempts := thresholdCount, triggered := true, external_user_id := some uid,
         external_lookup_error := ext.2, notify_sent := true, notify_error := none },
       { attempts := att2, messages := store_message_temp uid warning_message st.messages })
    | none =>
      ({ attempts := thresholdCount, triggered := true, external_user_id := none,
         external_lookup_error := ext.2, notify_sent := false, notify_error := none },
       { attempts := att2, messages := st.messages })
  else
    ({ attempts := wrong_attempts, triggered := false, external_user_id := none,
       external_lookup_error := none, notify_sent := false, notify_error := none },
     { attempts := att1, messages := st.messages })

/-- Candidate id paths of src/app.py:107-113 in source order. -/
def candidatePaths (b : RespBody) : List (Option String) :=
  [b.id, b.userId, b.userDotId, b.dataDotId, b.resultDotId]

/-- The specification's reading of the extraction (§4.3): the first present
non-empty value along the ordered path list wins. -/
def specExtract (b : RespBody) : Option String :=
  ((candidatePaths b).find? isTruthy).join

/-- An all-zero attempt counter. -/
def zeroAttempts : AttemptStore := fun _ => 0

/-- An empty message store. -/
def noMessages : MsgStore := fun _ => none

/-- A state whose every counter reads 2 (one failure short of the threshold). -/
def stateAtTwo : SysState := { attempts := fun _ => 2, messages := noMessages }

/-- A state whose every counter reads 0. -/
def stateAtZero : SysState := { attempts := zeroAttempts, messages := noMessages }

/-- A state whose every counter reads 1. -/
def stateAtOne : SysState := { attempts := fun _ => 1, messages := noMessages }

/-- A lookup outcome: HTTP 500 on the request. -/
def resp500 : LookupOutcome := .response 500 none

/-- A lookup outcome: HTTP 200 whose body carries top-level `id = "u42"`. -/
def respOkU42 : LookupOutcome := .response 200 (some ⟨some "u42", none, none, none, none⟩)

/-- A resolver-outcome sequence whose one response parses but matches none of
the probed identifier field paths. -/
def outsMissingField : List LookupOutcome :=
  [.response 200 (some ⟨none, none, none, none, none⟩)]

/-- A message store holding the empty string for recipient `u1`. -/
def storeWithEmptyMsg : MsgStore := fun k => if k = "u1" then some "" else none

/-- A message store holding `"hello"` for recipient `u1`. -/
def storeWithHello : MsgStore := fun k => if k = "u1" then some "hello" else none

/-- C1: for every account whose current count is threshold-1 = 2, the next
`RecordFailure` (the 3rd consecutive failure) triggers with `attemptsSoFar = 3`
and resets the counter, so one further `RecordFailure` immediately after
returns `attemptsSoFar = 1`. -/
theorem recordFailure_threshold_trigger_and_reset
    (email : String) (outs1 outs2 : List LookupOutcome) (st : SysState)
    (h : st.attempts (norm_email email) = 2) :
    (recordFailure email outs1 st).1.triggered = true ∧
    (recordFailure email outs1 st).1.attempts = 3 ∧
    (recordFailure email outs1 st).2.attempts (norm_email email) = 0 ∧
    (recordFailure email outs2 (recordFailure email outs1 st).2).1.attempts = 1 ∧
    (recordFailure email outs2 (recordFailure email outs1 st).2).1.triggered = false := by
  cases hf : (fetch_user_id_by_email outs1).1 <;>
    simp [recordFailure, increment_attempt, reset_attempt, updA, h, hf]

/-- Witness for C1 at a concrete account and state. -/
theorem recordFailure_threshold_trigger_and_reset_witness :
    stateAtTwo.attempts (norm_email "a@x.com") = 2 ∧
    ((recordFailure "a@x.com" [] stateAtTwo).1.triggered = true ∧
     (recordFailure "a@x.com" [] stateAtTwo).1.attempts = 3 ∧
     (recordFailure "a@x.com" [] stateAtTwo).2.attempts (norm_email "a@x.com") = 0 ∧
     (recordFailure "a@x.com" [] (recordFailure "a@x.com" [] stateAtTwo).2).1.attempts = 1 ∧
     (recordFailure "a@x.com" [] (recordFailure "a@x.com" [] stateAtTwo).2).1.triggered = false) :=
  ⟨rfl, recordFailure_threshold_trigger_and_reset "a@x.com" [] [] stateAtTwo rfl⟩

/-- C2: from a zero (or absent) counter, N consecutive `RecordFailure` calls
with N < 3 return `attemptsSoFar` values 1, 2, ..., N in order and
`triggered = false` on every one of them. -/
theorem runFailures_below_threshold
    (email : String) (outs : List LookupOutcome) (st : SysState) (N : Nat)
    (hN : N < 3) (h0 : st.attempts (norm_email email) = 0) :
    ((runFailures N email outs st).1.map FailureResult.attempts) =
      (List.range N).map (fun i => i + 1) ∧
    ∀ r ∈ (runFailures N email outs st).1, r.triggered = false := by
  interval_cases N <;>
    simp [runFailures, recordFailure, increment_attempt, reset_attempt, updA, h0,
      List.range_succ]

/-- Witness for C2 with N = 2 at a concrete account and state. -/
theorem runFailures_below_threshold_witness :
    (2 < 3 ∧ stateAtZero.attempts (norm_email "a@x.com") = 0) ∧
    (((runFailures 2 "a@x.com" [] stateAtZero).1.map FailureResult.attempts) =
      (List.range 2).map (fun i => i + 1) ∧
     ∀ r ∈ (runFailures 2 "a@x.com" [] stateAtZero).1, r.triggered = false) :=
  ⟨⟨by decide, rfl⟩,
   runFailures_below_threshold "a@x.com" [] stateAtZero 2 (by decide) rfl⟩

/-- C3: `RecordSuccess` resets the counter to 0 unconditionally from any prior
count (including an already-zero counter, where the counter value is
unchanged), leaves the message store alone, and a subsequent single
`RecordFailure` returns `attemptsSoFar = 1` without triggering. -/
theorem recordSuccess_resets_counter
    (email : String) (outs : List LookupOutcome) (st : SysState) :
    (recordSuccess email st).attempts (norm_email email) = 0 ∧
    (recordSuccess email st).messages = st.messages ∧
    (recordFailure email outs (recordSuccess email st)).1.attempts = 1 ∧
    (recordFailure email outs (recordSuccess email st)).1.triggered = false := by
  simp [recordSuccess, recordFailure, increment_attempt, reset_attempt, updA]


/-- C4 counterexample: an HTTP 500 on the first request followed by a 200 with
a valid id yields overall FAILURE (the second outcome is never requested),
although the second response alone would have succeeded — the code performs no
retry. -/
theorem fetch_no_retry_counterexample :
    fetch_user_id_by_email [resp500, respOkU42] = (none, some "lookup failed: 500") ∧
    fetch_user_id_by_email [respOkU42] = (some "u42", none) := by decide

/-- C4 amended: `fetch_user_id_by_email` issues exactly one request; a
non-success status on it fails immediately with `lookup failed: <code>` and no
second request is made — the result never depends on outcomes after the
first. -/
theorem fetch_single_attempt
    (code : Nat) (body : Option RespBody) (rest : List LookupOutcome)
    (h : code ≠ 200) :
    fetch_user_id_by_email (LookupOutcome.response code body :: rest) =
      (none, some ("lookup failed: " ++ toString code)) ∧
    (∀ (o : LookupOutcome) (r1 r2 : List LookupOutcome),
      fetch_user_id_by_email (o :: r1) = fetch_user_id_by_email (o :: r2)) := by
  constructor
  · simp [fetch_user_id_by_email, fetch_attempt, h]
  · intro o r1 r2; rfl

/-- Witness for the amended C4 at a concrete outcome sequence. -/
theorem fetch_single_attempt_witness :
    (500 ≠ 200) ∧
    fetch_user_id_by_email (LookupOutcome.response 500 none :: [respOkU42]) =
      (none, some ("lookup failed: " ++ toString 500)) :=
  ⟨by decide, (fetch_single_attempt 500 none [respOkU42] (by decide)).1⟩

/-- When the lookup returns no id, it always carries an error string. -/
theorem fetch_none_has_error (outs : List LookupOutcome)
    (h : (fetch_user_id_by_email outs).1 = none) :
    (fetch_user_id_by_email outs).2.isSome = true := by
  cases outs with
  | nil => simp [fetch_user_id_by_email]
  | cons o rest =>
    cases o with
    | transportErr msg => simp [fetch_user_id_by_email, fetch_attempt]
    | response code body =>
      by_cases hc : code = 200
      · subst hc
        cases body with
        | none => simp [fetch_user_id_by_email, fetch_attempt]
        | some b =>
          by_cases ht : isTruthy (extract_user_id b) <;>
            simp_all [fetch_user_id_by_email, fetch_attempt, isTruthy]
      · simp [fetch_user_id_by_email, fetch_attempt, hc]

/-- C5: a threshold-triggering `RecordFailure` whose resolution fails still
returns `triggered = true` with the failure surfaced as data
(`external_lookup_error` is exactly the resolver's error, and is present),
`notify_sent = false`, no fatal error (the function is total and returns a
result), the message store untouched, and the counter ALREADY reset to 0 —
the reset is committed before resolution and never rolled back. -/
theorem recordFailure_resolution_failure
    (email : String) (outs : List LookupOutcome) (st : SysState)
    (h2 : st.attempts (norm_email email) = 2)
    (hres : (fetch_user_id_by_email outs).1 = none) :
    (recordFailure email outs st).1.triggered = true ∧
    (recordFailure email outs st).1.attempts = 3 ∧
    (recordFailure email outs st).1.external_user_id = none ∧
    (recordFailure email outs st).1.external_lookup_error = (fetch_user_id_by_email outs).2 ∧
    (recordFailure email outs st).1.external_lookup_error.isSome = true ∧
    (recordFailure email outs st).1.notify_sent = false ∧
    (recordFailure email outs st).1.notify_error = none ∧
    (recordFailure email outs st).2.attempts (norm_email email) = 0 ∧
    (recordFailure email outs st).2.messages = st.messages := by
  have he := fetch_none_has_error outs hres
  simp [recordFailure, increment_attempt, reset_attempt, updA, h2, hres, he]

/-- Witness for C5: a parsed 200 body with no matching identifier field. -/
theorem recordFailure_resolution_failure_witness :
    (stateAtTwo.attempts (norm_email "a@x.com") = 2 ∧
     (fetch_user_id_by_email outsMissingField).1 = none) ∧
    ((recordFailure "a@x.com" outsMissingField stateAtTwo).1.triggered = true ∧
     (recordFailure "a@x.com" outsMissingField stateAtTwo).1.attempts = 3 ∧
     (recordFailure "a@x.com" outsMissingField stateAtTwo).1.external_user_id = none ∧
     (recordFailure "a@x.com" outsMissingField stateAtTwo).1.external_lookup_error =
       (fetch_user_id_by_email outsMissingField).2 ∧
     (recordFailure "a@x.com" outsMissingField stateAtTwo).1.external_lookup_error.isSome = true ∧
     (recordFailure "a@x.com" outsMissingField stateAtTwo).1.notify_sent = false ∧
     (recordFailure "a@x.com" outsMissingField stateAtTwo).1.notify_error = none ∧
     (recordFailure "a@x.com" outsMissingField stateAtTwo).2.attempts (norm_email "a@x.com") = 0 ∧
     (recordFailure "a@x.com" outsMissingField stateAtTwo).2.messages = stateAtTwo.messages) :=
  ⟨⟨rfl, by decide⟩,
   recordFailure_resolution_failure "a@x.com" outsMissingField stateAtTwo rfl (by decide)⟩

/-- C6 counterexample: recipient `u1` has a stored message (the empty string),
yet the first `ConsumeMessage` call returns NotFound instead of the stored
message, and the persisted store still holds it afterwards — the operation is
not fetch-and-delete for this input. -/
theorem consume_message_empty_string_counterexample :
    storeWithEmptyMsg "u1" = some "" ∧
    (get_and_delete_message "u1" storeWithEmptyMsg).1.1 = none ∧
    (get_and_delete_message "u1" storeWithEmptyMsg).1.2 = some "No message found" ∧
    (get_and_delete_message "u1" storeWithEmptyMsg).2 "u1" = some "" := by decide

/-- C6 amended: for every recipient with a stored NON-EMPTY message, two
sequential `ConsumeMessage` calls behave as fetch-and-delete: the first
returns the stored message and removes it, the second returns NotFound; and
for any recipient with no stored message the call returns NotFound and leaves
the store unchanged. -/
theorem consume_message_fetch_and_delete
    (s : MsgStore) (uid m : String) (h : s uid = some m) (hne : m ≠ "") :
    (get_and_delete_message uid s).1.1 = some m ∧
    (get_and_delete_message uid s).1.2 = none ∧
    (get_and_delete_message uid s).2 uid = none ∧
    (get_and_delete_message uid ((get_and_delete_message uid s).2)).1.1 = none ∧
    (get_and_delete_message uid ((get_and_delete_message uid s).2)).1.2 =
      some "No message found" ∧
    (get_and_delete_message uid ((get_and_delete_message uid s).2)).2 =
      (get_and_delete_message uid s).2 ∧
    ∀ (s2 : MsgStore) (u2 : String), s2 u2 = none →
      get_and_delete_message u2 s2 = ((none, some "No message found"), s2) := by
  refine ⟨?_, ?_, ?_, ?_, ?_, ?_, ?_⟩ <;>
    first
      | (intro s2 u2 h2; simp [get_and_delete_message, h2])
      | simp [get_and_delete_message, updM, h, hne]

/-- Witness for the amended C6 at a concrete store and recipient. -/
theorem consume_message_fetch_and_delete_witness :
    (storeWithHello "u1" = some "hello" ∧ "hello" ≠ "") ∧
    ((get_and_delete_message "u1" storeWithHello).1.1 = some "hello" ∧
     (get_and_delete_message "u1" storeWithHello).1.2 = none ∧
     (get_and_delete_message "u1" storeWithHello).2 "u1" = none ∧
     (get_and_delete_message "u1" ((get_and_delete_message "u1" storeWithHello).2)).1.1 = none ∧
     (get_and_delete_message "u1" ((get_and_delete_message "u1" storeWithHello).2)).1.2 =
       some "No message found" ∧
     (get_and_delete_message "u1" ((get_and_delete_message "u1" storeWithHello).2)).2 =
       (get_and_delete_message "u1" storeWithHello).2 ∧
     ∀ (s2 : MsgStore) (u2 : String), s2 u2 = none →
       get_and_delete_message u2 s2 = ((none, some "No message found"), s2)) :=
  ⟨⟨by decide, by decide⟩,
   consume_message_fetch_and_delete storeWithHello "u1" "hello" (by decide) (by decide)⟩

/-- C10: consuming a stored EMPTY message reports NotFound, returns the store
unchanged (the file is not rewritten), and the empty message survives: the
operation is not fetch-and-delete for that input. -/
theorem consume_message_empty_never_removed
    (s : MsgStore) (uid : String) (h : s uid = some "") :
    get_and_delete_message uid s = ((none, some "No message found"), s) ∧
    (get_and_delete_message uid s).2 uid = some "" := by
  simp [get_and_delete_message, h]

/-- Witness for C10 at a concrete store and recipient. -/
theorem consume_message_empty_never_removed_witness :
    storeWithEmptyMsg "u1" = some "" ∧
    (get_and_delete_message "u1" storeWithEmptyMsg =
       ((none, some "No message found"), storeWithEmptyMsg) ∧
     (get_and_delete_message "u1" storeWithEmptyMsg).2 "u1" = some "") :=
  ⟨by decide, consume_message_empty_never_removed storeWithEmptyMsg "u1" (by decide)⟩

/-- A single-element path list finds exactly its element when truthy. -/
theorem find_truthy_base (a : Option String) :
    (isTruthy a = true → [a].find? isTruthy = some a) ∧
    (isTruthy a = false → [a].find? isTruthy = none) := by
  constructor <;> intro h <;> simp [List.find?, h]

/-- Prepending a candidate to a path list matches prepending it to the
`or`-chain: a truthy head wins, a falsy head defers to the tail. -/
theorem find_truthy_step (a x : Option String) (l : List (Option String))
    (ht : isTruthy x = true → l.find? isTruthy = some x)
    (hf : isTruthy x = false → l.find? isTruthy = none) :
    (isTruthy (pyOr a x) = true → (a :: l).find? isTruthy = some (pyOr a x)) ∧
    (isTruthy (pyOr a x) = false → (a :: l).find? isTruthy = none) := by
  cases a with
  | none =>
    have hskip : (none :: l).find? isTruthy = l.find? isTruthy := by
      simp [List.find?, isTruthy]
    have hpy : pyOr none x = x := rfl
    rw [hpy, hskip]
    exact ⟨ht, hf⟩
  | some t =>
    by_cases hts : t = ""
    · subst hts
      have hskip : (some "" :: l).find? isTruthy = l.find? isTruthy := by
        simp [List.find?, isTruthy]
      have hpy : pyOr (some "") x = x := by simp [pyOr]
      rw [hpy, hskip]
      exact ⟨ht, hf⟩
    · have hhit : (some t :: l).find? isTruthy = some (some t) := by
        simp [List.find?, isTruthy, hts]
      have hpy : pyOr (some t) x = some t := by simp [pyOr, hts]
      rw [hpy, hhit]
      constructor <;> intro h
      · rfl
      · simp [isTruthy, hts] at h

/-- The source's `or`-chain agrees with a first-truthy search over the ordered
candidate path list. -/
theorem extract_user_id_find (b : RespBody) :
    (isTruthy (extract_user_id b) = true →
      (candidatePaths b).find? isTruthy = some (extract_user_id b)) ∧
    (isTruthy (extract_user_id b) = false →
      (candidatePaths b).find? isTruthy = none) := by
  have h5 := find_truthy_base b.resultDotId
  have h4 := find_truthy_step b.dataDotId _ _ h5.1 h5.2
  have h3 := find_truthy_step b.userDotId _ _ h4.1 h4.2
  have h2 := find_truthy_step b.userId _ _ h3.1 h3.2
  have h1 := find_truthy_step b.id _ _ h2.1 h2.2
  exact h1

/-- C7: for every successfully parsed 200 response body, the extracted
identifier is the first present non-empty value among, in this exact order,
top-level `id`, top-level `userId`, nested `user.id`, nested `data.id`,
nested `result.id` (`specExtract`); when no path yields a non-empty value,
resolution fails with the missing-identifier error. -/
theorem fetch_probes_paths_in_order (b : RespBody) :
    fetch_user_id_by_email [.response 200 (some b)] =
      match specExtract b with
      | some v => (some v, none)
      | none => (none, some "id not found in response") := by
  have h := extract_user_id_find b
  by_cases ht : isTruthy (extract_user_id b) = true
  · have hfind := h.1 ht
    rcases hx : extract_user_id b with _ | v
    · rw [hx] at ht; simp [isTruthy] at ht
    · rw [hx] at hfind
      simp [fetch_user_id_by_email, fetch_attempt, specExtract, hfind, hx,
        hx ▸ ht]
  · have ht' : isTruthy (extract_user_id b) = false := by
      simpa using ht
    have hfind := h.2 ht'
    simp [fetch_user_id_by_email, fetch_attempt, specExtract, hfind, ht']

/-- C8 counterexample: with a counter at 1, the spec-mandated configurable
orchestrator configured with `thresholdCount = 2` triggers on the next
failure, but the code does not — it reports `attempts = 2`, `triggered =
false`, because its trigger point is the literal 3. -/
theorem threshold_not_configurable_counterexample :
    (recordFailureSpec 2 "a@x.com" [] stateAtOne).1.triggered = true ∧
    (recordFailure "a@x.com" [] stateAtOne).1.triggered = false ∧
    (recordFailure "a@x.com" [] stateAtOne).1.attempts = 2 := by decide

/-- C8 amended: the trigger point is the hard-coded literal 3
(`wrong_attempts == 3`), not a configuration option: the code coincides with
the spec's configurable orchestrator exactly at `thresholdCount = 3`, and the
trigger fires precisely when the incremented count equals 3. -/
theorem recordFailure_triggers_exactly_at_three :
    (∀ (email : String) (outs : List LookupOutcome) (st : SysState),
      recordFailure email outs st = recordFailureSpec 3 email outs st) ∧
    (∀ (email : String) (outs : List LookupOutcome) (st : SysState),
      ((recordFailure email outs st).1.triggered = true ↔
        st.attempts (norm_email email) + 1 = 3)) := by
  constructor
  · intro email outs st; rfl
  · intro email outs st
    by_cases h : st.attempts (norm_email email) + 1 = 3
    · cases hf : (fetch_user_id_by_email outs).1 <;>
        simp [recordFailure, increment_attempt, h, hf]
    · simp [recordFailure, increment_attempt, h]

/-- C9: counter operations are invariant under account-key normalization: two
email strings equal after trimming surrounding whitespace and lowercasing
address the same counter entry, with identical return value and resulting
store, for both Increment and Reset. -/
theorem counter_ops_respect_normalization
    (e1 e2 : String) (h : norm_email e1 = norm_email e2) (s : AttemptStore) :
    increment_attempt e1 s = increment_attempt e2 s ∧
    reset_attempt e1 s = reset_attempt e2 s := by
  simp [increment_attempt, reset_attempt, h]

/-- Witness for C9: a padded, differently-cased spelling of the same address. -/
theorem counter_ops_respect_normalization_witness :
    norm_email "  A@X.com " = norm_email "a@x.com" ∧
    (increment_attempt "  A@X.com " zeroAttempts = increment_attempt "a@x.com" zeroAttempts ∧
     reset_attempt "  A@X.com " zeroAttempts = reset_attempt "a@x.com" zeroAttempts) :=
  ⟨by decide,
   counter_ops_respect_normalization "  A@X.com " "a@x.com" (by decide) zeroAttempts⟩
